import Mathlib

/-!
# HaloClaude core: shallow embedding and verification

This file embeds the core orchestration subsystem of the HaloClaude
repository in Lean 4 and proves the frozen claims about it:

* `src/context/parser.py`   — `TicketIdParser` (ordered regex rules),
* `src/context/fetcher.py`  — `ContextFetcher.fetch_full_context` and its
  field-extraction helpers,
* `src/context/injector.py` — `ContextInjector.inject_context`,
  `_get_or_fetch_context`, `_cleanup_cache` (TTL cache),
* `src/agent/executor.py`   — `AgentExecutor.run` / `_execute_tool`
  (bounded tool-calling loop).

Modelling conventions:

* Loosely-typed Python/JSON values are the inductive `Val`; Python
  truthiness is `Val.truthy`.
* Async collaborators (the Halo REST client, the Anthropic model backend,
  the formatter) are parameters.  A call that may raise is a function into
  `Except String _`; `.error e` models a raised exception whose `str()` is
  `e`.  `asyncio.gather` joins are modelled by evaluating the joined calls
  and merging the results in the source's task order.
* Wall-clock times (`time.time()` floats) are integer instants passed
  explicitly (the claims only compare and subtract times).
* Mutation of `self._cache` and of `current_messages` is explicit state
  passing; functions return the updated state.  Observable events needed
  by the claims (whether an underlying fetch happened, the sequence of
  model responses) are returned alongside, without changing the modelled
  control flow.
-/

/-- A Python/JSON-ish value, as handled by the fetcher, formatter and tool
dispatch (`Dict[str, Any]` payloads).  Python `bool` is a subtype of `int`;
we keep them separate constructors and note the one place it could matter. -/
inductive Val where
  | vnone
  | vbool (b : Bool)
  | vint (n : Int)
  | vstr (s : String)
  | vlist (xs : List Val)
  | vdict (kvs : List (String × Val))
  deriving Repr

/-- Python truthiness (`if value:`). -/
def Val.truthy : Val → Bool
  | .vnone => false
  | .vbool b => b
  | .vint n => n != 0
  | .vstr s => s != ""
  | .vlist xs => !xs.isEmpty
  | .vdict kvs => !kvs.isEmpty

/-- First value bound to key `k` in a Python dict (dicts keep insertion
order; repeated keys cannot arise from JSON decoding, `find?` takes the
first). -/
def dget (kvs : List (String × Val)) (k : String) : Option Val :=
  (kvs.find? (fun kv => kv.1 == k)).map (fun kv => kv.2)

mutual

/-- Python `str(value)` restricted to the shapes the code interpolates into
f-strings.  Containers are rendered in a fixed readable form (string
elements unquoted, unlike CPython `repr`); no claim inspects rendered
containers, only `str` of ints/strings. -/
def Val.pyStr : Val → String
  | .vnone => "None"
  | .vbool b => if b then "True" else "False"
  | .vint n => toString n
  | .vstr s => s
  | .vlist xs => "[" ++ String.intercalate ", " (pyStrList xs) ++ "]"
  | .vdict kvs => "\x7b" ++ String.intercalate ", " (pyStrDict kvs) ++ "\x7d"

/-- Renders each list element. -/
def pyStrList : List Val → List String
  | [] => []
  | x :: xs => x.pyStr :: pyStrList xs

/-- Renders each dict entry. -/
def pyStrDict : List (String × Val) → List String
  | [] => []
  | (k, v) :: kvs => (k ++ ": " ++ v.pyStr) :: pyStrDict kvs

end

mutual

/-- Model of `json.dumps` as used on tool results (string escaping reduced to the
backslash-and-quote cases; separator conventions of the default encoder). -/
def Val.jsonDumps : Val → String
  | .vnone => "null"
  | .vbool b => if b then "true" else "false"
  | .vint n => toString n
  | .vstr s => "\"" ++ (s.replace "\\" "\\\\").replace "\"" "\\\"" ++ "\""
  | .vlist xs => "[" ++ String.intercalate ", " (jsonDumpsList xs) ++ "]"
  | .vdict kvs => "\x7b" ++ String.intercalate ", " (jsonDumpsDict kvs) ++ "\x7d"

/-- Serializes each list element. -/
def jsonDumpsList : List Val → List String
  | [] => []
  | x :: xs => x.jsonDumps :: jsonDumpsList xs

/-- Serializes each dict entry. -/
def jsonDumpsDict : List (String × Val) → List String
  | [] => []
  | (k, v) :: kvs =>
    ("\"" ++ k ++ "\": " ++ v.jsonDumps) :: jsonDumpsDict kvs

end

mutual

/-- Structural equality on values, used for the `aid not in seen`
deduplication test.  (CPython also equates `1 == True` and `1 == 1.0`;
the asset ids handled here are plain ints, where the notions agree.) -/
def Val.pyEq : Val → Val → Bool
  | .vnone, .vnone => true
  | .vbool a, .vbool b => a == b
  | .vint a, .vint b => a == b
  | .vstr a, .vstr b => a == b
  | .vlist xs, .vlist ys => pyEqList xs ys
  | .vdict xs, .vdict ys => pyEqDict xs ys
  | _, _ => false

/-- List equality, elementwise. -/
def pyEqList : List Val → List Val → Bool
  | [], [] => true
  | x :: xs, y :: ys => Val.pyEq x y && pyEqList xs ys
  | _, _ => false

/-- Dict equality, entrywise (insertion-ordered model of dict equality;
the values compared by the dedup loop are never dicts of differing order). -/
def pyEqDict : List (String × Val) → List (String × Val) → Bool
  | [], [] => true
  | (k1, v1) :: xs, (k2, v2) :: ys => k1 == k2 && Val.pyEq v1 v2 && pyEqDict xs ys
  | _, _ => false

end

/-! ## `src/context/parser.py` — TicketIdParser

The six compiled patterns of `TICKET_ID_PATTERNS` are embedded as direct
scanning functions over the character list, each one faithful to the
regex it implements (with `re.IGNORECASE`; `\s`/`\d` taken in their ASCII
reading).  `re.search` semantics — try the pattern anchored at every
position from the left, first success wins — is the shared `scanFirst`
driver, which also carries the previous character for the one pattern
with a look-behind.  Each matcher returns the captured digit run. -/

/-- Python regex `\s` (ASCII): space, tab, newline, carriage return,
vertical tab, form feed. -/
def isPySpace (c : Char) : Bool :=
  c == ' ' || c == '\t' || c == '\n' || c == '\r' ||
  c == Char.ofNat 11 || c == Char.ofNat 12

/-- Conversion `int()` of a captured digit run. -/
def digitsToNat (ds : List Char) : Nat :=
  ds.foldl (fun n c => n * 10 + (c.toNat - '0'.toNat)) 0

/-- Case-insensitive literal prefix match; returns the rest of the input. -/
def stripLitCI : List Char → List Char → Option (List Char)
  | [], cs => some cs
  | _ :: _, [] => none
  | l :: ls, c :: cs => if c.toLower == l.toLower then stripLitCI ls cs else none

/-- Rule `Ticket\s*#\s*(\d+)` anchored at the current position.  The greedy
`\s*` before a non-space literal and the greedy final `(\d+)` admit no
backtracking, so maximal munch is exact. -/
def ticketHashAt (cs : List Char) : Option (List Char) :=
  match stripLitCI "Ticket".data cs with
  | none => none
  | some cs1 =>
    match cs1.dropWhile isPySpace with
    | '#' :: cs2 =>
      let ds := (cs2.dropWhile isPySpace).takeWhile Char.isDigit
      if ds.isEmpty then none else some ds
    | _ => none

/-- Rule `Ticket\s+(\d+)` anchored at the current position. -/
def ticketSpaceAt (cs : List Char) : Option (List Char) :=
  match stripLitCI "Ticket".data cs with
  | none => none
  | some cs1 =>
    let sp := cs1.takeWhile isPySpace
    if sp.isEmpty then none
    else
      let ds := (cs1.dropWhile isPySpace).takeWhile Char.isDigit
      if ds.isEmpty then none else some ds

/-- Rule `ticket[_\s]?id[:\s]+(\d+)` anchored at the current position.  The
greedy optional `[_\s]?` backtracks to the empty alternative when `id`
does not follow the consumed character. -/
def ticketIdKeyAt (cs : List Char) : Option (List Char) :=
  match stripLitCI "ticket".data cs with
  | none => none
  | some cs1 =>
    let afterId : Option (List Char) :=
      match cs1 with
      | c :: rest =>
        if c == '_' || isPySpace c then
          match stripLitCI "id".data rest with
          | some r => some r
          | none => stripLitCI "id".data cs1
        else stripLitCI "id".data cs1
      | [] => none
    match afterId with
    | none => none
    | some cs2 =>
      let sep := cs2.takeWhile (fun c => c == ':' || isPySpace c)
      if sep.isEmpty then none
      else
        let ds := (cs2.dropWhile (fun c => c == ':' || isPySpace c)).takeWhile Char.isDigit
        if ds.isEmpty then none else some ds

/-- Rule `\[Ticket:\s*(\d+)\]` anchored at the current position. -/
def bracketTicketAt (cs : List Char) : Option (List Char) :=
  match cs with
  | '[' :: cs1 =>
    match stripLitCI "Ticket".data cs1 with
    | none => none
    | some cs2 =>
      match cs2 with
      | ':' :: cs3 =>
        let body := cs3.dropWhile isPySpace
        let ds := body.takeWhile Char.isDigit
        if ds.isEmpty then none
        else
          match body.dropWhile Char.isDigit with
          | ']' :: _ => some ds
          | _ => none
      | _ => none
  | _ => none

/-- Rule `/tickets/(\d+)` anchored at the current position. -/
def urlTicketAt (cs : List Char) : Option (List Char) :=
  match stripLitCI "/tickets/".data cs with
  | none => none
  | some cs1 =>
    let ds := cs1.takeWhile Char.isDigit
    if ds.isEmpty then none else some ds

/-- Rule 6, the bare hash `(?<!\d)#(\d of count 4 or more)(?!\d)`,
anchored at the current position; `prev` is
the character before it.  The trailing look-ahead holds by maximality of
the taken digit run. -/
def bareHashAt (prev : Option Char) (cs : List Char) : Option (List Char) :=
  match cs with
  | '#' :: cs1 =>
    if (match prev with | some p => p.isDigit | none => false) then none
    else
      let ds := cs1.takeWhile Char.isDigit
      if 4 ≤ ds.length then some ds else none
  | _ => none

/-- One anchored rule of the table: previous character and remaining text
to captured digits. -/
abbrev RuleMatcher := Option Char → List Char → Option (List Char)

/-- Search a la `re.search`: try the anchored matcher at each position left to right. -/
def scanFirst (m : RuleMatcher) : Option Char → List Char → Option (List Char)
  | prev, [] => m prev []
  | prev, c :: cs =>
    match m prev (c :: cs) with
    | some ds => some ds
    | none => scanFirst m (some c) cs

/-- The table `TICKET_ID_PATTERNS`, compiled, in source order. -/
def TICKET_ID_PATTERNS : List RuleMatcher :=
  [fun _ => ticketHashAt,
   fun _ => ticketSpaceAt,
   fun _ => ticketIdKeyAt,
   fun _ => bracketTicketAt,
   fun _ => urlTicketAt,
   bareHashAt]

/-- The `for pattern in self._compiled` loop of `TicketIdParser.parse`:
first pattern with a match anywhere wins; its capture is converted with
`int`. -/
def firstCapture : List RuleMatcher → List Char → Option Nat
  | [], _ => none
  | m :: ms, cs =>
    match scanFirst m none cs with
    | some ds => some (digitsToNat ds)
    | none => firstCapture ms cs

namespace TicketIdParser

/-- Method `TicketIdParser.parse` (default patterns).  The caller passes
`Optional[str]`; `if not system_prompt` short-circuits `None` and `""`,
which we fold into the empty-string test by taking `String` here and
`Option String` at the injector, whose own falsiness test runs first. -/
def parse (system_prompt : String) : Option Nat :=
  if system_prompt == "" then none
  else firstCapture TICKET_ID_PATTERNS system_prompt.data

end TicketIdParser

/-- The search of pattern `i` of the table alone (`none` past the end). -/
def ruleSearch (i : Nat) (s : String) : Option (List Char) :=
  match TICKET_ID_PATTERNS.get? i with
  | some m => scanFirst m none s.data
  | none => none

/-! ## `src/context/fetcher.py` — ContextFetcher

The Halo REST client is the collaborator; each of its async lookups is a
function into `Except String Val` (`.error e` = the call raised, `str()` of
the exception being `e`).  Arguments are passed as the loosely-typed values
the call sites supply. -/

/-- The `HaloClient` collaborator interface consumed by the core
(`get_ticket` … `get_kb_article`).  Field order follows `halo/client.py`. -/
structure HaloOracle where
  get_ticket : Val → Except String Val
  get_ticket_actions : Val → Except String Val
  search_tickets : Val → Val → Val → Val → Except String Val
  get_user : Val → Except String Val
  get_user_tickets : Val → Val → Val → Except String Val
  get_client : Val → Except String Val
  get_client_tickets : Val → Val → Val → Except String Val
  get_asset : Val → Except String Val
  search_kb : Val → Val → Except String Val
  get_kb_article : Val → Except String Val

/-- Dataclass `ContextData`: container for all fetched Halo context.
`ticket`/`user`/`client` are `None` (unassigned) or the fetched value;
`actions` is assigned a whole value (`actions_result if actions_result
else []`); `assets` and `errors` are built by appending. -/
structure ContextData where
  ticket : Option Val := none
  actions : Val := .vlist []
  user : Option Val := none
  client : Option Val := none
  assets : List Val := []
  errors : List String := []
  deriving Repr

/-- Lookup `ticket.get(field)` with `None` default.  A non-dict receiver raises
`AttributeError` in Python; the extraction helpers run outside every
`try`, so such an error propagates out of `fetch_full_context`. -/
def pyDictGet (v : Val) (k : String) : Except String Val :=
  match v with
  | .vdict kvs => .ok ((dget kvs k).getD .vnone)
  | _ => .error ("AttributeError: object has no attribute get (" ++ k ++ ")")

/-- Lookup `ticket.get(field, default)` with an explicit default. -/
def pyDictGetD (v : Val) (k : String) (dflt : Val) : Except String Val :=
  match v with
  | .vdict kvs => .ok ((dget kvs k).getD dflt)
  | _ => .error ("AttributeError: object has no attribute get (" ++ k ++ ")")

/-- The shared body of `_extract_user_id` / `_extract_client_id`: try the
candidate field names in order; accept a bare int, or a dict whose `id`
entry is truthy (returning that entry); skip anything else. -/
def extractIdFrom (ticket : Val) : List String → Except String (Option Val)
  | [] => .ok none
  | f :: fs =>
    match pyDictGet ticket f with
    | .error e => .error e
    | .ok value =>
      match value with
      | .vint n => .ok (some (.vint n))
      | .vdict kvs =>
        match dget kvs "id" with
        | some idv => if idv.truthy then .ok (some idv) else extractIdFrom ticket fs
        | none => extractIdFrom ticket fs
      | _ => extractIdFrom ticket fs

/-- Method `ContextFetcher._extract_user_id`. -/
def extract_user_id (ticket : Val) : Except String (Option Val) :=
  extractIdFrom ticket ["user_id", "userid", "user", "reportedby"]

/-- Method `ContextFetcher._extract_client_id`. -/
def extract_client_id (ticket : Val) : Except String (Option Val) :=
  extractIdFrom ticket ["client_id", "clientid", "client", "organisation_id"]

/-- Ids contributed by one `assets`-style field value: a list keeps dict
entries with truthy `id` (taking the `id`) and bare ints; a lone dict with
truthy `id` or a lone int also counts; anything else is skipped. -/
def assetIdsOfField (assets : Val) : List Val :=
  match assets with
  | .vlist xs =>
    xs.foldl (fun acc asset =>
      match asset with
      | .vdict kvs =>
        match dget kvs "id" with
        | some idv => if idv.truthy then acc ++ [idv] else acc
        | none => acc
      | .vint n => acc ++ [.vint n]
      | _ => acc) []
  | .vdict kvs =>
    match dget kvs "id" with
    | some idv => if idv.truthy then [idv] else []
    | none => []
  | .vint n => [.vint n]
  | _ => []

/-- The `aid not in seen` dedup loop: keep first occurrences in order
(`seen` always holds exactly the elements of `unique_ids`). -/
def dedupPreserve (ids : List Val) : List Val :=
  ids.foldl (fun acc aid =>
    if acc.any (fun x => x.pyEq aid) then acc else acc ++ [aid]) []

/-- Method `ContextFetcher._extract_asset_ids`: the direct truthy `asset_id`
field, then each of `assets`/`linkedassets`/`asset` (default `[]`),
deduplicated preserving first-seen order. -/
def extract_asset_ids (ticket : Val) : Except String (List Val) :=
  match pyDictGet ticket "asset_id" with
  | .error e => .error e
  | .ok direct =>
    let start := if direct.truthy then [direct] else []
    match pyDictGetD ticket "assets" (.vlist []) with
    | .error e => .error e
    | .ok f1 =>
      match pyDictGetD ticket "linkedassets" (.vlist []) with
      | .error e => .error e
      | .ok f2 =>
        match pyDictGetD ticket "asset" (.vlist []) with
        | .error e => .error e
        | .ok f3 =>
          .ok (dedupPreserve
            (start ++ assetIdsOfField f1 ++ assetIdsOfField f2 ++ assetIdsOfField f3))

/-- Method `ContextFetcher._safe_fetch`: result on success, `(None, message)` on
an exception. -/
def safe_fetch (r : Except String Val) (entity_desc : String) :
    Option Val × Option String :=
  match r with
  | .ok result => (some result, none)
  | .error e => (none, some ("Failed to fetch " ++ entity_desc ++ ": " ++ e))

/-- Which secondary fetch a gathered task belongs to (the
`task_labels` strings `"user"`, `"client"`, `"asset_<id>"`). -/
inductive FetchLabel where
  | user
  | client
  | asset
  deriving Repr, DecidableEq

/-- The merge loop over `zip(task_labels, results)`: an error string is
appended; otherwise a truthy result is stored under its label (assets
append). -/
def merge_result (ctx : ContextData) (task : FetchLabel × Option Val × Option String) :
    ContextData :=
  match task.2.2 with
  | some e => { ctx with errors := ctx.errors ++ [e] }
  | none =>
    match task.2.1 with
    | some result =>
      if result.truthy then
        match task.1 with
        | .user => { ctx with user := some result }
        | .client => { ctx with client := some result }
        | .asset => { ctx with assets := ctx.assets ++ [result] }
      else ctx
    | none => ctx

/-- Method `ContextFetcher.fetch_full_context`.  Step 1 fetches ticket and
actions (gathered; both outcomes observed before proceeding): a failed
ticket fetch records the error and returns immediately; a failed actions
fetch only records a history error.  Step 2 extracts related ids (outside
any `try`: an extraction exception propagates).  Step 3 gathers one
guarded fetch per id and merges results in task order. -/
def fetch_full_context (h : HaloOracle) (ticket_id : Nat) :
    Except String ContextData :=
  match h.get_ticket (.vint ticket_id) with
  | .error e =>
    .ok { errors := ["Failed to fetch ticket " ++ toString ticket_id ++ ": " ++ e] }
  | .ok ticket_result =>
    let stepOne : Val × List String :=
      match h.get_ticket_actions (.vint ticket_id) with
      | .error e => (.vlist [], ["Failed to fetch ticket history: " ++ e])
      | .ok actions_result =>
        (if actions_result.truthy then actions_result else .vlist [], [])
    match extract_user_id ticket_result with
    | .error e => .error e
    | .ok user_id =>
      match extract_client_id ticket_result with
      | .error e => .error e
      | .ok client_id =>
        match extract_asset_ids ticket_result with
        | .error e => .error e
        | .ok asset_ids =>
          let userTasks : List (FetchLabel × Option Val × Option String) :=
            match user_id with
            | some u =>
              if u.truthy then
                [(.user, safe_fetch (h.get_user u) ("user " ++ u.pyStr))]
              else []
            | none => []
          let clientTasks : List (FetchLabel × Option Val × Option String) :=
            match client_id with
            | some c =>
              if c.truthy then
                [(.client, safe_fetch (h.get_client c) ("client " ++ c.pyStr))]
              else []
            | none => []
          let assetTasks : List (FetchLabel × Option Val × Option String) :=
            asset_ids.map (fun a =>
              (.asset, safe_fetch (h.get_asset a) ("asset " ++ a.pyStr)))
          let init : ContextData :=
            { ticket := some ticket_result, actions := stepOne.1,
              errors := stepOne.2 }
          .ok ((userTasks ++ clientTasks ++ assetTasks).foldl merge_result init)

/-! ## `src/context/injector.py` — ContextInjector

The cache `self._cache : Dict[int, (ContextData, float)]` is an
insertion-ordered association list; `time.time()` instants are integers
supplied by the caller.  Every cache-touching function returns the updated
cache; `_get_or_fetch_context` additionally reports whether it invoked the
underlying `fetch_full_context` (the observable the cache claims are
about). -/

/-- The injector's cache: insertion-ordered `ticket_id ↦ (data, stamp)`. -/
abbrev ContextCache := List (Nat × ContextData × ℤ)

/-- Tests `ticket_id in self._cache` and reads `self._cache[ticket_id]`. -/
def cacheLookup (cache : ContextCache) (ticket_id : Nat) :
    Option (ContextData × ℤ) :=
  (cache.find? (fun e => e.1 == ticket_id)).map (fun e => e.2)

/-- Write `self._cache[ticket_id] = value`: replace in place if the key exists
(dicts keep the original position), else append. -/
def cacheSet (cache : ContextCache) (ticket_id : Nat) (v : ContextData × ℤ) :
    ContextCache :=
  if cache.any (fun e => e.1 == ticket_id) then
    cache.map (fun e => if e.1 == ticket_id then (ticket_id, v) else e)
  else cache ++ [(ticket_id, v)]

/-- Method `ContextInjector._cleanup_cache`: delete every entry whose age is at
least the TTL (keep strictly younger ones). -/
def cleanup_cache (cache : ContextCache) (now cache_ttl : ℤ) : ContextCache :=
  cache.filter (fun e => decide (now - e.2.2 < cache_ttl))

/-- Method `ContextInjector._get_or_fetch_context`.  A hit younger than the TTL
returns the cached bundle with no fetch and no cache change; otherwise a
fresh `fetch_full_context` runs (its exception propagates before any cache
write), the entry is stored keyed by id, and the synchronous sweep runs.
The `Bool` reports whether the underlying fetch was invoked. -/
def get_or_fetch_context (h : HaloOracle) (cache_ttl : ℤ) (cache : ContextCache)
    (ticket_id : Nat) (now : ℤ) :
    Except String (ContextData × ContextCache × Bool) :=
  let fresh : Except String (ContextData × ContextCache × Bool) :=
    match fetch_full_context h ticket_id with
    | .error e => .error e
    | .ok context =>
      let c1 := cacheSet cache ticket_id (context, now)
      let c2 := cleanup_cache c1 now cache_ttl
      .ok (context, c2, true)
  match cacheLookup cache ticket_id with
  | some (context, cached_at) =>
    if now - cached_at < cache_ttl then .ok (context, cache, false) else fresh
  | none => fresh

/-- Method `ContextInjector.inject_context`.  The formatter is the external
collaborator of the spec's §6 (`ContextFormatter.format` is out of core
scope); it may raise, which the injector boundary must catch.  Guards run
outside the `try`: disabled, falsy prompt, falsy parsed id.  Inside the
`try`, an exception from fetch-or-format degrades to the original prompt —
with whatever cache writes already happened kept, since the cache mutation
precedes the raise.  Returns (prompt', cache', fetched?). -/
def inject_context (h : HaloOracle) (fmt : ContextData → Except String String)
    (enabled : Bool) (cache_ttl : ℤ) (cache : ContextCache)
    (system_prompt : Option String) (now : ℤ) :
    Option String × ContextCache × Bool :=
  if !enabled then (system_prompt, cache, false)
  else
    match system_prompt with
    | none => (none, cache, false)
    | some p =>
      if p == "" then (some p, cache, false)
      else
        match TicketIdParser.parse p with
        | none => (some p, cache, false)
        | some ticket_id =>
          if ticket_id == 0 then (some p, cache, false)
          else
            match get_or_fetch_context h cache_ttl cache ticket_id now with
            | .error _ => (some p, cache, false)
            | .ok (context, c2, fetched) =>
              match fmt context with
              | .error _ => (some p, c2, fetched)
              | .ok formatted => (some (p ++ "\n\n" ++ formatted), c2, fetched)

/-- Method `ContextInjector.clear_cache`. -/
def clear_cache (_cache : ContextCache) : ContextCache := []

/-! ## `src/agent/executor.py` — AgentExecutor

Conversation state is a list of role-tagged messages whose content is a
plain string, a list of content blocks, or a list of tool results (the
three shapes the loop reads and writes).  The Anthropic backend
(`self.client.messages.create`) is a collaborator receiving exactly the
request fields the loop builds: the current messages, the `system` value
when truthy, the `tools` list when truthy.  The run additionally returns
the list of model responses received (in order) so the claims about round
counts are statable; this changes no modelled behavior. -/

/-- Maximum number of tool execution rounds to prevent infinite loops. -/
def MAX_TOOL_ROUNDS : Nat := 10

/-- A content block of a model response or assistant turn. -/
inductive Block where
  | text (t : String)
  | tool_use (id : String) (name : String) (input : Val)
  | other (ty : String)
  deriving Repr

/-- A `tool_result` entry of the user turn the loop appends. -/
structure ToolResultBlock where
  tool_use_id : String
  content : String
  deriving Repr, DecidableEq

/-- Message content: plain text, content blocks, or tool results. -/
inductive MsgContent where
  | str (s : String)
  | blocks (bs : List Block)
  | results (rs : List ToolResultBlock)
  deriving Repr

/-- One conversation turn. -/
structure Msg where
  role : String
  content : MsgContent
  deriving Repr

/-- Python truthiness of a message content value (`if system:`). -/
def MsgContent.truthy : MsgContent → Bool
  | .str s => s != ""
  | .blocks bs => !bs.isEmpty
  | .results rs => !rs.isEmpty

/-- A raw response object from the model backend. -/
structure ModelResponse where
  id : String
  type : String := "message"
  role : String := "assistant"
  content : List Block
  model : String := ""
  stop_reason : String
  stop_sequence : Option String := none
  input_tokens : Nat := 0
  output_tokens : Nat := 0
  deriving Repr

/-- The canonical output record built by `_response_to_dict`. -/
structure ResponseDict where
  id : String
  type : String
  role : String
  content : List Block
  model : String
  stop_reason : String
  stop_sequence : Option String
  input_tokens : Nat
  output_tokens : Nat
  deriving Repr

/-- Method `AgentExecutor._block_to_dict`: text and tool_use blocks keep their
fields; any other block type keeps only its `type`. -/
def block_to_dict : Block → Block
  | .text t => .text t
  | .tool_use i n inp => .tool_use i n inp
  | .other ty => .other ty

/-- Method `AgentExecutor._response_to_dict`. -/
def response_to_dict (r : ModelResponse) : ResponseDict :=
  { id := r.id, type := r.type, role := r.role,
    content := r.content.map block_to_dict, model := r.model,
    stop_reason := r.stop_reason, stop_sequence := r.stop_sequence,
    input_tokens := r.input_tokens, output_tokens := r.output_tokens }

/-- Method `AgentExecutor._extract_system`: filter out system turns, remembering
the last one's content. -/
def extract_system (messages : List Msg) : List Msg × Option MsgContent :=
  messages.foldl
    (fun acc msg =>
      if msg.role == "system" then (acc.1, some msg.content)
      else (acc.1 ++ [msg], acc.2))
    ([], none)

/-- Indexing `tool_input["key"]`: a missing key raises `KeyError` whose `str()`
CPython renders as the quoted key; we render it as `KeyError: key`. -/
def pyIndex (d : Val) (k : String) : Except String Val :=
  match d with
  | .vdict kvs =>
    match dget kvs k with
    | some v => .ok v
    | none => .error ("KeyError: " ++ k)
  | _ => .error ("TypeError: not a dict (" ++ k ++ ")")

/-- The model backend collaborator: receives the request fields the loop
builds (`messages`, `system` if truthy, `tools` if truthy). -/
abbrev ModelBackend :=
  List Msg → Option MsgContent → Option (List Val) → ModelResponse

/-- The `system` request field: present only when truthy. -/
def sysArg (system : Option MsgContent) : Option MsgContent :=
  match system with
  | some s => if s.truthy then some s else none
  | none => none

/-- The `tools` request field: present only when the list is truthy. -/
def toolsArg (tools : List Val) : Option (List Val) :=
  if tools.isEmpty then none else some tools

/-- Method `AgentExecutor._execute_tool`: fixed dispatch on the tool name, with
required parameters indexed (raising `KeyError` when absent) and optional
ones defaulted via `.get`; the whole body is wrapped so any exception
becomes an `{error: str(e)}` payload, and an unknown name returns
`{error: "Unknown tool: <name>"}` without raising. -/
def execute_tool (h : HaloOracle) (tool_name : String) (tool_input : Val) : Val :=
  let body : Except String Val :=
    if tool_name == "get_ticket" then
      match pyIndex tool_input "ticket_id" with
      | .error e => .error e
      | .ok tid => h.get_ticket tid
    else if tool_name == "get_user" then
      match pyIndex tool_input "user_id" with
      | .error e => .error e
      | .ok uid => h.get_user uid
    else if tool_name == "get_user_tickets" then
      match pyIndex tool_input "user_id" with
      | .error e => .error e
      | .ok uid =>
        match pyDictGetD tool_input "count" (.vint 10) with
        | .error e => .error e
        | .ok count =>
          match pyDictGetD tool_input "open_only" (.vbool false) with
          | .error e => .error e
          | .ok oo => h.get_user_tickets uid count oo
    else if tool_name == "get_client" then
      match pyIndex tool_input "client_id" with
      | .error e => .error e
      | .ok cid => h.get_client cid
    else if tool_name == "get_client_tickets" then
      match pyIndex tool_input "client_id" with
      | .error e => .error e
      | .ok cid =>
        match pyDictGetD tool_input "count" (.vint 10) with
        | .error e => .error e
        | .ok count =>
          match pyDictGetD tool_input "open_only" (.vbool false) with
          | .error e => .error e
          | .ok oo => h.get_client_tickets cid count oo
    else if tool_name == "get_asset" then
      match pyIndex tool_input "asset_id" with
      | .error e => .error e
      | .ok aid => h.get_asset aid
    else if tool_name == "search_tickets" then
      match pyIndex tool_input "query" with
      | .error e => .error e
      | .ok q =>
        match pyDictGetD tool_input "count" (.vint 10) with
        | .error e => .error e
        | .ok count =>
          match pyDictGetD tool_input "client_id" .vnone with
          | .error e => .error e
          | .ok cid =>
            match pyDictGetD tool_input "user_id" .vnone with
            | .error e => .error e
            | .ok uid => h.search_tickets q count cid uid
    else if tool_name == "search_kb" then
      match pyIndex tool_input "query" with
      | .error e => .error e
      | .ok q =>
        match pyDictGetD tool_input "count" (.vint 5) with
        | .error e => .error e
        | .ok count => h.search_kb q count
    else if tool_name == "get_kb_article" then
      match pyIndex tool_input "article_id" with
      | .error e => .error e
      | .ok aid => h.get_kb_article aid
    else
      .ok (.vdict [("error", .vstr ("Unknown tool: " ++ tool_name))])
  match body with
  | .ok v => v
  | .error e => .vdict [("error", .vstr e)]

/-- Serialization `json.dumps(result) if isinstance(result, (dict, list)) else
str(result)`. -/
def serializeToolResult (v : Val) : String :=
  match v with
  | .vdict _ => v.jsonDumps
  | .vlist _ => v.jsonDumps
  | _ => v.pyStr

/-- The tool_use blocks of a response's content (`block.type ==
"tool_use"`), as (id, name, input) triples. -/
def toolCallsOf (bs : List Block) : List (String × String × Val) :=
  bs.filterMap (fun b =>
    match b with
    | .tool_use i n inp => some (i, n, inp)
    | _ => none)

/-- The sequential tool-execution loop of one round: one `tool_result`
per requested call, in emission order, correlated by the call's id. -/
def toolResults (h : HaloOracle) (bs : List Block) : List ToolResultBlock :=
  (toolCallsOf bs).map (fun c =>
    { tool_use_id := c.1, content := serializeToolResult (execute_tool h c.2.1 c.2.2) })

/-- Result of a run: the returned canonical record, the final conversation
state, the model responses received in order, and whether the round cap
warning fired. -/
structure RunResult where
  result : ResponseDict
  messages : List Msg
  responses : List ModelResponse
  capWarning : Bool
  deriving Repr

/-- The placeholder for Python's `response` local before any round ran: if
`MAX_TOOL_ROUNDS` were 0 the source would raise `NameError`; with the cap
at 10 this value is unreachable. -/
def noResponseYet : ModelResponse :=
  { id := "", type := "", role := "", content := [], model := "",
    stop_reason := "", stop_sequence := none }

/-- The `while tool_round < MAX_TOOL_ROUNDS` loop of `AgentExecutor.run`:
`fuel` is the number of loop iterations still permitted, `last` the
`response` local of the previous iteration.  On `stop_reason ==
"tool_use"` the assistant turn (raw content through `_block_to_dict`) and
the single user turn of tool results are appended and the loop repeats;
otherwise the canonical record of the response is returned.  Exhausted
fuel returns the last response with the max-rounds warning. -/
def runLoop (complete : ModelBackend) (h : HaloOracle)
    (system : Option MsgContent) (tools : List Val) :
    Nat → List Msg → List ModelResponse → ModelResponse → RunResult
  | 0, msgs, resps, last =>
    { result := response_to_dict last, messages := msgs,
      responses := resps, capWarning := true }
  | fuel + 1, msgs, resps, _ =>
    let response := complete msgs (sysArg system) (toolsArg tools)
    if response.stop_reason == "tool_use" then
      let msgs1 := msgs ++
        [{ role := "assistant", content := .blocks (response.content.map block_to_dict) }]
      let msgs2 := msgs1 ++
        [{ role := "user", content := .results (toolResults h response.content) }]
      runLoop complete h system tools fuel msgs2 (resps ++ [response]) response
    else
      { result := response_to_dict response, messages := msgs,
        responses := resps ++ [response], capWarning := false }

namespace AgentExecutor

/-- Method `AgentExecutor.run`: extract the system turn when none is supplied,
then drive the loop from a copy of the messages with the round budget. -/
def run (complete : ModelBackend) (h : HaloOracle) (messages : List Msg)
    (tools : List Val) (system : Option MsgContent) : RunResult :=
  let st : List Msg × Option MsgContent :=
    match system with
    | none => extract_system messages
    | some s => (messages, some s)
  runLoop complete h st.2 tools MAX_TOOL_ROUNDS st.1 [] noResponseYet

end AgentExecutor

/-! ## Concrete collaborators used by witnesses and counterexamples -/

/-- A Halo backend on which every lookup succeeds with a small record. -/
def haloOK : HaloOracle :=
  { get_ticket := fun _ => .ok (.vdict [("id", .vint 5)]),
    get_ticket_actions := fun _ => .ok (.vlist []),
    search_tickets := fun _ _ _ _ => .ok (.vlist []),
    get_user := fun _ => .ok (.vdict [("name", .vstr "u")]),
    get_user_tickets := fun _ _ _ => .ok (.vlist []),
    get_client := fun _ => .ok (.vdict [("name", .vstr "c")]),
    get_client_tickets := fun _ _ _ => .ok (.vlist []),
    get_asset := fun _ => .ok (.vdict [("name", .vstr "a")]),
    search_kb := fun _ _ => .ok (.vlist []),
    get_kb_article := fun _ => .ok (.vdict [("id", .vint 1)]) }

/-- Backend `haloOK` with a failing primary-record lookup. -/
def haloFailTicket : HaloOracle :=
  { haloOK with get_ticket := fun _ => .error "HTTP 404" }

/-- A formatter collaborator that always succeeds. -/
def fmtOK : ContextData → Except String String := fun _ => .ok "CTX"

/-- A formatter collaborator that raises. -/
def fmtBoom : ContextData → Except String String := fun _ => .error "boom"

/-- The bundle `haloOK.fetch_full_context` produces for any id: the bare
ticket record and nothing else (no linked ids in the ticket). -/
def ctxOK : ContextData :=
  { ticket := some (.vdict [("id", .vint 5)]), actions := .vlist [] }

/-- The bundle `fetch_full_context` returns when the primary-record fetch
raises `e`: defaults everywhere, one error string. -/
def failedBundle (ticket_id : Nat) (e : String) : ContextData :=
  { errors := ["Failed to fetch ticket " ++ toString ticket_id ++ ": " ++ e] }

/-! ## Claims about the injector -/

/-- Claim C9.  For every prompt, if injection is disabled by configuration,
or the prompt is empty (`None` or `""`), or no recognition rule matches
any identifier in the prompt, `inject` returns its input unchanged — and
touches neither the cache nor the fetcher. -/
theorem inject_identity (h : HaloOracle) (fmt : ContextData → Except String String)
    (enabled : Bool) (ttl : ℤ) (cache : ContextCache) (sp : Option String) (now : ℤ) :
    (enabled = false → inject_context h fmt enabled ttl cache sp now = (sp, cache, false)) ∧
    (inject_context h fmt enabled ttl cache none now = (none, cache, false)) ∧
    (inject_context h fmt enabled ttl cache (some "") now = (some "", cache, false)) ∧
    (∀ p : String, TicketIdParser.parse p = none →
      inject_context h fmt enabled ttl cache (some p) now = (some p, cache, false)) := by
  refine ⟨fun hd => ?_, ?_, ?_, fun p hp => ?_⟩
  · subst hd; simp [inject_context]
  · cases enabled <;> simp [inject_context]
  · cases enabled <;> simp [inject_context, TicketIdParser.parse]
  · cases enabled <;> simp [inject_context]
    by_cases he : p = ""
    · subst he; simp
    · simp [he, hp]

/-- Witness for C9 at a disabled injector, an empty prompt, and a prompt
with no recognizable identifier. -/
theorem inject_identity_witness :
    inject_context haloOK fmtOK false 300 [] (some "Ticket #12") 0 =
      (some "Ticket #12", [], false) ∧
    inject_context haloOK fmtOK true 300 [] none 0 = (none, [], false) ∧
    inject_context haloOK fmtOK true 300 [] (some "") 0 = (some "", [], false) ∧
    TicketIdParser.parse "no id here" = none ∧
    inject_context haloOK fmtOK true 300 [] (some "no id here") 0 =
      (some "no id here", [], false) :=
  ⟨(inject_identity haloOK fmtOK false 300 [] (some "Ticket #12") 0).1 rfl,
   (inject_identity haloOK fmtOK true 300 [] none 0).2.1,
   (inject_identity haloOK fmtOK true 300 [] (some "") 0).2.2.1,
   rfl,
   (inject_identity haloOK fmtOK true 300 [] (some "no id here") 0).2.2.2 _ rfl⟩

/-- Claim C10.  `parse` does return the captured number 0 (e.g. for
`"Ticket #0"`), but `inject_context` tests the parse result for Python
truthiness (`if not ticket_id`), not for presence, so a parsed 0 is
treated like "no identifier": the prompt is returned unchanged, the cache
untouched, and no fetch is performed — identifier 0 is never enriched. -/
theorem parse_zero_never_enriched :
    TicketIdParser.parse "Ticket #0" = some 0 ∧
    ∀ (h : HaloOracle) (fmt : ContextData → Except String String)
      (ttl : ℤ) (cache : ContextCache) (p : String) (now : ℤ),
      TicketIdParser.parse p = some 0 →
      inject_context h fmt true ttl cache (some p) now = (some p, cache, false) := by
  refine ⟨rfl, fun h fmt ttl cache p now hp => ?_⟩
  by_cases he : p = ""
  · subst he; exact absurd hp (by simp [TicketIdParser.parse])
  · simp [inject_context, he, hp]

/-- Witness for C10 at the prompt `"Ticket #0"` with live collaborators. -/
theorem parse_zero_never_enriched_witness :
    TicketIdParser.parse "Ticket #0" = some 0 ∧
    inject_context haloOK fmtOK true 300 [] (some "Ticket #0") 0 =
      (some "Ticket #0", [], false) :=
  ⟨parse_zero_never_enriched.1,
   parse_zero_never_enriched.2 haloOK fmtOK 300 [] "Ticket #0" 0 rfl⟩

/-- Claim C5.  Every exception raised inside the injection sequence is
caught at the injector boundary and degrades to the original prompt.
`TicketIdParser.parse` is total (it raises on no input), so the modelled
exception sources are a raise escaping `fetch_full_context` (the
extraction helpers running on a non-dict ticket) and a raise from the
formatter collaborator; in both cases `inject_context` returns the
original prompt — its total return type is the "never propagates"
guarantee itself. -/
theorem inject_catches_all (h : HaloOracle) (fmt : ContextData → Except String String)
    (ttl : ℤ) (cache : ContextCache) (p : String) (now : ℤ) (tid : Nat)
    (hp : TicketIdParser.parse p = some tid) (htid : tid ≠ 0) :
    (∀ e : String, get_or_fetch_context h ttl cache tid now = .error e →
      inject_context h fmt true ttl cache (some p) now = (some p, cache, false)) ∧
    (∀ (ctx : ContextData) (c2 : ContextCache) (fl : Bool) (e : String),
      get_or_fetch_context h ttl cache tid now = .ok (ctx, c2, fl) →
      fmt ctx = .error e →
      inject_context h fmt true ttl cache (some p) now = (some p, c2, fl)) := by
  have he : p ≠ "" := by
    intro hpe; subst hpe; exact absurd hp (by simp [TicketIdParser.parse])
  constructor
  · intro e hraise
    simp [inject_context, he, hp, htid, hraise]
  · intro ctx c2 fl e hok hfmt
    simp [inject_context, he, hp, htid, hok, hfmt]

/-- Witness for C5: a raising formatter (with a healthy fetch) degrades
to the original prompt; the cache write that preceded the raise is kept,
as in the source. -/
theorem inject_catches_all_witness :
    TicketIdParser.parse "Ticket #7" = some 7 ∧
    get_or_fetch_context haloOK 300 [] 7 0 = .ok (ctxOK, [(7, ctxOK, 0)], true) ∧
    fmtBoom ctxOK = .error "boom" ∧
    inject_context haloOK fmtBoom true 300 [] (some "Ticket #7") 0 =
      (some "Ticket #7", [(7, ctxOK, 0)], true) :=
  ⟨rfl, rfl, rfl,
   (inject_catches_all haloOK fmtBoom 300 [] "Ticket #7" 0 7 rfl (by decide)).2
     ctxOK [(7, ctxOK, 0)] true "boom" rfl rfl⟩

/-- Claim C2.  Starting from a cache without the identifier: a first
`getOrFetch` at `t1` invokes the underlying fetch and stores the bundle;
a second call within the TTL window returns the cached bundle unchanged
with no fetch and no cache change (even against a backend `h2` that would
answer differently); a third call after the entry's TTL expiry invokes a
second fetch whose bundle replaces the cache entry for that key.  Exactly
one underlying fetch happens across the first two calls, a second one on
the third. -/
theorem cache_getOrFetch_idempotent (h1 h2 h3 : HaloOracle)
    (ttl t1 t2 t3 : ℤ) (tid : Nat) (b1 b3 : ContextData)
    (httl : 0 < ttl)
    (hf1 : fetch_full_context h1 tid = .ok b1)
    (hf3 : fetch_full_context h3 tid = .ok b3)
    (hfresh : t2 - t1 < ttl) (hstale : ¬ t3 - t1 < ttl) :
    get_or_fetch_context h1 ttl [] tid t1 = .ok (b1, [(tid, b1, t1)], true) ∧
    get_or_fetch_context h2 ttl [(tid, b1, t1)] tid t2 =
      .ok (b1, [(tid, b1, t1)], false) ∧
    get_or_fetch_context h3 ttl [(tid, b1, t1)] tid t3 =
      .ok (b3, [(tid, b3, t3)], true) := by
  refine ⟨?_, ?_, ?_⟩
  · simp [get_or_fetch_context, cacheLookup, cacheSet, cleanup_cache, hf1, httl]
  · simp [get_or_fetch_context, cacheLookup, hfresh]
  · simp [get_or_fetch_context, cacheLookup, cacheSet, cleanup_cache, hf3, httl, hstale]

/-- Witness for C2 at identifier 5, TTL 300, call times 0, 100, 400,
with backends whose primary record differs between the fetches. -/
theorem cache_getOrFetch_idempotent_witness :
    fetch_full_context haloOK 5 = .ok ctxOK ∧
    fetch_full_context haloFailTicket 5 = .ok (failedBundle 5 "HTTP 404") ∧
    get_or_fetch_context haloOK 300 [] 5 0 = .ok (ctxOK, [(5, ctxOK, 0)], true) ∧
    get_or_fetch_context haloFailTicket 300 [(5, ctxOK, 0)] 5 100 =
      .ok (ctxOK, [(5, ctxOK, 0)], false) ∧
    get_or_fetch_context haloFailTicket 300 [(5, ctxOK, 0)] 5 400 =
      .ok (failedBundle 5 "HTTP 404", [(5, failedBundle 5 "HTTP 404", 400)], true) :=
  have hmain := cache_getOrFetch_idempotent haloOK haloFailTicket haloFailTicket
    300 0 100 400 5 ctxOK (failedBundle 5 "HTTP 404")
    (by decide) rfl rfl (by decide) (by decide)
  ⟨rfl, rfl, hmain.1, hmain.2.1, hmain.2.2⟩

/-- Claim C1, amended.  When the primary-record fetch fails,
`fetch_full_context` short-circuits: the bundle carries no ticket, no
history entries, no user, no organization, no assets, and exactly one
error string (so at least one).  However, `_get_or_fetch_context` stores
that failed bundle in the cache exactly like a successful one, and —
the real formatter being total — `inject_context` returns the original
prompt with the formatted appendix attached, not the original prompt
unchanged. -/
theorem primary_failure_short_circuit (h : HaloOracle)
    (fmt : ContextData → Except String String)
    (tid : Nat) (e p out : String) (ttl now : ℤ)
    (hfail : h.get_ticket (.vint tid) = .error e)
    (httl : 0 < ttl)
    (hp : TicketIdParser.parse p = some tid) (htid : tid ≠ 0)
    (hfmt : fmt (failedBundle tid e) = .ok out) :
    fetch_full_context h tid = .ok (failedBundle tid e) ∧
    failedBundle tid e =
      { ticket := none, actions := .vlist [], user := none, client := none,
        assets := [],
        errors := ["Failed to fetch ticket " ++ toString tid ++ ": " ++ e] } ∧
    inject_context h fmt true ttl [] (some p) now =
      (some (p ++ "\n\n" ++ out), [(tid, failedBundle tid e, now)], true) := by
  have he : p ≠ "" := by
    intro hpe; subst hpe; exact absurd hp (by simp [TicketIdParser.parse])
  have hfetch : fetch_full_context h tid = .ok (failedBundle tid e) := by
    simp [fetch_full_context, hfail, failedBundle]
  refine ⟨hfetch, rfl, ?_⟩
  simp [inject_context, he, hp, htid, get_or_fetch_context, cacheLookup,
    hfetch, cacheSet, cleanup_cache, httl, hfmt]

/-- Witness for C1: backend whose `get_ticket` raises `HTTP 404`, prompt
`"Ticket #5"`, an always-succeeding formatter. -/
theorem primary_failure_short_circuit_witness :
    haloFailTicket.get_ticket (.vint 5) = .error "HTTP 404" ∧
    fetch_full_context haloFailTicket 5 = .ok (failedBundle 5 "HTTP 404") ∧
    inject_context haloFailTicket fmtOK true 300 [] (some "Ticket #5") 0 =
      (some ("Ticket #5" ++ "\n\n" ++ "CTX"), [(5, failedBundle 5 "HTTP 404", 0)], true) :=
  have hmain := primary_failure_short_circuit haloFailTicket fmtOK 5 "HTTP 404"
    "Ticket #5" "CTX" 300 0 rfl (by decide) rfl (by decide) rfl
  ⟨rfl, hmain.1, hmain.2.2⟩

/-- Counterexample for C1.  The claim as stated is false on the code: at
ticket 5 with a failing primary fetch, the failed bundle *is* stored in
the cache, and `inject` does *not* return the original prompt — it
returns the prompt with the formatted appendix (the formatter accepts the
error-only bundle without raising). -/
theorem primary_failure_claim_refuted :
    (inject_context haloFailTicket fmtOK true 300 [] (some "Ticket #5") 0).2.1 =
      [(5, failedBundle 5 "HTTP 404", 0)] ∧
    (inject_context haloFailTicket fmtOK true 300 [] (some "Ticket #5") 0).1 ≠
      some "Ticket #5" := by
  refine ⟨rfl, ?_⟩
  intro hcontra
  have hval : (inject_context haloFailTicket fmtOK true 300 [] (some "Ticket #5") 0).1 =
      some ("Ticket #5" ++ "\n\n" ++ "CTX") := rfl
  rw [hval] at hcontra
  simp at hcontra

/-- Claim C6.  Primary fetch succeeds, the ticket links one user, one
organization and one asset, and exactly one of the three secondary
fetches fails: the returned bundle keeps the two successful secondary
results and carries exactly one error string naming the failed lookup —
a secondary failure never removes or blocks sibling secondary data. -/
theorem secondary_failure_isolated (h : HaloOracle) (tid : Nat)
    (t acts u c a : Val) (e : String)
    (ht : h.get_ticket (.vint tid) = .ok t)
    (hacts : h.get_ticket_actions (.vint tid) = .ok acts) (hatr : acts.truthy = true)
    (hu : extract_user_id t = .ok (some u)) (hut : u.truthy = true)
    (hc : extract_client_id t = .ok (some c)) (hct : c.truthy = true)
    (ha : extract_asset_ids t = .ok [a]) :
    (∀ cd ad : Val, h.get_user u = .error e →
      h.get_client c = .ok cd → cd.truthy = true →
      h.get_asset a = .ok ad → ad.truthy = true →
      fetch_full_context h tid = .ok
        { ticket := some t, actions := acts, user := none, client := some cd,
          assets := [ad],
          errors := ["Failed to fetch user " ++ u.pyStr ++ ": " ++ e] }) ∧
    (∀ ud ad : Val, h.get_user u = .ok ud → ud.truthy = true →
      h.get_client c = .error e →
      h.get_asset a = .ok ad → ad.truthy = true →
      fetch_full_context h tid = .ok
        { ticket := some t, actions := acts, user := some ud, client := none,
          assets := [ad],
          errors := ["Failed to fetch client " ++ c.pyStr ++ ": " ++ e] }) ∧
    (∀ ud cd : Val, h.get_user u = .ok ud → ud.truthy = true →
      h.get_client c = .ok cd → cd.truthy = true →
      h.get_asset a = .error e →
      fetch_full_context h tid = .ok
        { ticket := some t, actions := acts, user := some ud, client := some cd,
          assets := [],
          errors := ["Failed to fetch asset " ++ a.pyStr ++ ": " ++ e] }) := by
  refine ⟨fun cd ad h1 h2 h3 h4 h5 => ?_, fun ud ad h1 h2 h3 h4 h5 => ?_,
    fun ud cd h1 h2 h3 h4 h5 => ?_⟩ <;>
    simp [fetch_full_context, ht, hacts, hatr, hu, hut, hc, hct, ha,
      safe_fetch, h1, h2, h3, h4, h5, merge_result] <;>
    (rw [← String.append_assoc]; rfl)

/-- A ticket record linking user 7, client 8 and asset 9. -/
def ticketLinked : Val :=
  .vdict [("id", .vint 5), ("user_id", .vint 7), ("client_id", .vint 8),
          ("asset_id", .vint 9)]

/-- A backend for `ticketLinked` whose user lookup raises and whose other
lookups succeed. -/
def haloUserDown : HaloOracle :=
  { haloOK with
    get_ticket := fun _ => .ok ticketLinked,
    get_ticket_actions := fun _ => .ok (.vlist [.vdict [("note", .vstr "n")]]),
    get_user := fun _ => .error "user service down" }

/-- Witness for C6: ticket 5 links user 7, client 8, asset 9; the user
lookup fails, the client and asset survive, one error string names the
user. -/
theorem secondary_failure_isolated_witness :
    extract_user_id ticketLinked = .ok (some (.vint 7)) ∧
    extract_client_id ticketLinked = .ok (some (.vint 8)) ∧
    extract_asset_ids ticketLinked = .ok [.vint 9] ∧
    fetch_full_context haloUserDown 5 = .ok
      { ticket := some ticketLinked,
        actions := .vlist [.vdict [("note", .vstr "n")]],
        user := none, client := some (.vdict [("name", .vstr "c")]),
        assets := [.vdict [("name", .vstr "a")]],
        errors := ["Failed to fetch user " ++ (Val.vint 7).pyStr ++ ": " ++
          "user service down"] } :=
  ⟨rfl, rfl, rfl,
   (secondary_failure_isolated haloUserDown 5 ticketLinked
      (.vlist [.vdict [("note", .vstr "n")]]) (.vint 7) (.vint 8) (.vint 9)
      "user service down" rfl rfl rfl rfl rfl rfl rfl rfl).1
      (.vdict [("name", .vstr "c")]) (.vdict [("name", .vstr "a")])
      rfl rfl rfl rfl rfl⟩

/-- Claim C7.  Tool dispatch never raises to the loop's caller: an unknown
tool name yields the structured payload
`{error: "Unknown tool: <name>"}`, a missing required parameter (here the
canonical `ticket_id` of `get_ticket`) yields `{error: str(KeyError)}`,
and a collaborator exception yields `{error: str(e)}` — all returned as
the tool result. -/
theorem tool_dispatch_errors :
    (∀ (h : HaloOracle) (input : Val) (name : String),
      name ∉ ["get_ticket", "get_user", "get_user_tickets", "get_client",
              "get_client_tickets", "get_asset", "search_tickets", "search_kb",
              "get_kb_article"] →
      execute_tool h name input =
        .vdict [("error", .vstr ("Unknown tool: " ++ name))]) ∧
    (∀ (h : HaloOracle) (kvs : List (String × Val)),
      dget kvs "ticket_id" = none →
      execute_tool h "get_ticket" (.vdict kvs) =
        .vdict [("error", .vstr "KeyError: ticket_id")]) ∧
    (∀ (h : HaloOracle) (input tid : Val) (e : String),
      pyIndex input "ticket_id" = .ok tid → h.get_ticket tid = .error e →
      execute_tool h "get_ticket" input = .vdict [("error", .vstr e)]) := by
  refine ⟨fun h input name hname => ?_, fun h kvs hmiss => ?_,
    fun h input tid e hidx hfail => ?_⟩
  · simp only [List.mem_cons, List.mem_singleton, not_or] at hname
    obtain ⟨n1, n2, n3, n4, n5, n6, n7, n8, n9, -⟩ := hname
    simp [execute_tool, n1, n2, n3, n4, n5, n6, n7, n8, n9]
  · simp [execute_tool, pyIndex, hmiss]
  · simp [execute_tool, hidx, hfail]

/-- Witness for C7: the tool name `frobnicate`, a `get_ticket` call with
no `ticket_id`, and a `get_ticket` call whose backend raises. -/
theorem tool_dispatch_errors_witness :
    execute_tool haloOK "frobnicate" (.vdict []) =
      .vdict [("error", .vstr ("Unknown tool: " ++ "frobnicate"))] ∧
    execute_tool haloOK "get_ticket" (.vdict [("x", .vint 1)]) =
      .vdict [("error", .vstr "KeyError: ticket_id")] ∧
    execute_tool haloFailTicket "get_ticket" (.vdict [("ticket_id", .vint 5)]) =
      .vdict [("error", .vstr "HTTP 404")] :=
  ⟨tool_dispatch_errors.1 haloOK (.vdict []) "frobnicate" (by decide),
   tool_dispatch_errors.2.1 haloOK [("x", .vint 1)] rfl,
   tool_dispatch_errors.2.2 haloFailTicket (.vdict [("ticket_id", .vint 5)])
     (.vint 5) "HTTP 404" rfl rfl⟩

/-- Loop invariant behind the round cap: with a backend that always
requests tools, each unit of remaining fuel adds exactly one model
response, the cap warning fires, and the returned record is the canonical
conversion of the last response received. -/
theorem runLoop_always_tool (complete : ModelBackend) (h : HaloOracle)
    (sys : Option MsgContent) (tools : List Val)
    (halways : ∀ m s t, (complete m s t).stop_reason = "tool_use") :
    ∀ (fuel : Nat) (msgs : List Msg) (resps : List ModelResponse) (r0 : ModelResponse),
      (runLoop complete h sys tools fuel msgs (resps ++ [r0]) r0).responses.length
          = resps.length + 1 + fuel ∧
      (runLoop complete h sys tools fuel msgs (resps ++ [r0]) r0).capWarning = true ∧
      ∃ last, (runLoop complete h sys tools fuel msgs (resps ++ [r0]) r0).responses.getLast?
            = some last ∧
        (runLoop complete h sys tools fuel msgs (resps ++ [r0]) r0).result
            = response_to_dict last := by
  intro fuel
  induction fuel with
  | zero =>
    intro msgs resps r0
    refine ⟨by simp [runLoop], by simp [runLoop], r0, ?_, by simp [runLoop]⟩
    simp [runLoop, List.getLast?_append_cons]
  | succ n ih =>
    intro msgs resps r0
    have hstop := halways msgs (sysArg sys) (toolsArg tools)
    have hstep : runLoop complete h sys tools (n + 1) msgs (resps ++ [r0]) r0 =
        runLoop complete h sys tools n
          (msgs ++
            [{ role := "assistant",
               content := .blocks ((complete msgs (sysArg sys) (toolsArg tools)).content.map block_to_dict) }] ++
            [{ role := "user",
               content := .results (toolResults h (complete msgs (sysArg sys) (toolsArg tools)).content) }])
          ((resps ++ [r0]) ++ [complete msgs (sysArg sys) (toolsArg tools)])
          (complete msgs (sysArg sys) (toolsArg tools)) := by
      conv_lhs => rw [runLoop]
      simp [hstop]
    rw [hstep]
    obtain ⟨hlen, hcap, hlast⟩ := ih
      (msgs ++
        [{ role := "assistant",
           content := .blocks ((complete msgs (sysArg sys) (toolsArg tools)).content.map block_to_dict) }] ++
        [{ role := "user",
           content := .results (toolResults h (complete msgs (sysArg sys) (toolsArg tools)).content) }])
      (resps ++ [r0]) (complete msgs (sysArg sys) (toolsArg tools))
    refine ⟨?_, hcap, hlast⟩
    simpa [Nat.add_assoc, Nat.add_comm, Nat.add_left_comm] using hlen

/-- The cap invariant from a fresh loop entry: ten rounds, warning, and
the last (tenth) response returned. -/
theorem runLoop_always_cap (complete : ModelBackend) (h : HaloOracle)
    (sys : Option MsgContent) (tools : List Val)
    (halways : ∀ m s t, (complete m s t).stop_reason = "tool_use")
    (msgs : List Msg) :
    (runLoop complete h sys tools MAX_TOOL_ROUNDS msgs [] noResponseYet).responses.length
        = MAX_TOOL_ROUNDS ∧
    (runLoop complete h sys tools MAX_TOOL_ROUNDS msgs [] noResponseYet).capWarning = true ∧
    ∃ last,
      (runLoop complete h sys tools MAX_TOOL_ROUNDS msgs [] noResponseYet).responses.getLast?
          = some last ∧
      (runLoop complete h sys tools MAX_TOOL_ROUNDS msgs [] noResponseYet).result
          = response_to_dict last := by
  have hstop := halways msgs (sysArg sys) (toolsArg tools)
  have hstep : runLoop complete h sys tools MAX_TOOL_ROUNDS msgs [] noResponseYet =
      runLoop complete h sys tools 9
        (msgs ++
          [{ role := "assistant",
             content := .blocks ((complete msgs (sysArg sys) (toolsArg tools)).content.map block_to_dict) }] ++
          [{ role := "user",
             content := .results (toolResults h (complete msgs (sysArg sys) (toolsArg tools)).content) }])
        ([] ++ [complete msgs (sysArg sys) (toolsArg tools)])
        (complete msgs (sysArg sys) (toolsArg tools)) := by
    show runLoop complete h sys tools (9 + 1) msgs [] noResponseYet = _
    rw [runLoop]
    simp [hstop]
  rw [hstep]
  obtain ⟨hlen, hcap, hlast⟩ := runLoop_always_tool complete h sys tools halways 9
    (msgs ++
      [{ role := "assistant",
         content := .blocks ((complete msgs (sysArg sys) (toolsArg tools)).content.map block_to_dict) }] ++
      [{ role := "user",
         content := .results (toolResults h (complete msgs (sysArg sys) (toolsArg tools)).content) }])
    [] (complete msgs (sysArg sys) (toolsArg tools))
  exact ⟨hlen, hcap, hlast⟩

/-- Claim C3.  A model that requests tool use on every round drives the
loop through exactly 10 model rounds (never an 11th call: the trace has
length 10); the loop then terminates with the round-cap warning recorded
and returns the 10th round's model response as-is, converted to the
canonical output record — not an error. -/
theorem tool_loop_round_cap (complete : ModelBackend) (h : HaloOracle)
    (messages : List Msg) (tools : List Val) (system : Option MsgContent)
    (halways : ∀ m s t, (complete m s t).stop_reason = "tool_use") :
    (AgentExecutor.run complete h messages tools system).responses.length = 10 ∧
    (AgentExecutor.run complete h messages tools system).capWarning = true ∧
    ∃ last,
      (AgentExecutor.run complete h messages tools system).responses.getLast? = some last ∧
      (AgentExecutor.run complete h messages tools system).result = response_to_dict last := by
  unfold AgentExecutor.run
  exact runLoop_always_cap complete h _ tools halways _

/-- A backend that requests the same tool call on every round. -/
def alwaysToolModel : ModelBackend := fun _ _ _ =>
  { id := "loop", content := [.tool_use "t1" "get_ticket" (.vdict [("ticket_id", .vint 5)])],
    stop_reason := "tool_use" }

/-- Witness for C3 with the constant always-tool backend. -/
theorem tool_loop_round_cap_witness :
    (∀ m s t, (alwaysToolModel m s t).stop_reason = "tool_use") ∧
    ((AgentExecutor.run alwaysToolModel haloOK [{ role := "user", content := .str "hi" }]
        [] (some (.str "sys"))).responses.length = 10 ∧
     (AgentExecutor.run alwaysToolModel haloOK [{ role := "user", content := .str "hi" }]
        [] (some (.str "sys"))).capWarning = true ∧
     ∃ last,
       (AgentExecutor.run alwaysToolModel haloOK [{ role := "user", content := .str "hi" }]
          [] (some (.str "sys"))).responses.getLast? = some last ∧
       (AgentExecutor.run alwaysToolModel haloOK [{ role := "user", content := .str "hi" }]
          [] (some (.str "sys"))).result = response_to_dict last) :=
  ⟨fun _ _ _ => rfl,
   tool_loop_round_cap alwaysToolModel haloOK [{ role := "user", content := .str "hi" }]
     [] (some (.str "sys")) (fun _ _ _ => rfl)⟩

/-- Claim C4.  (a) In every tool round, the user turn holds one tool result
per requested call, in emission order, each carrying the `tool_use_id` of
its originating call.  (b) A run where the model requests exactly one
tool and then stops appends exactly one assistant turn with the model's
raw content and exactly one user turn with the single correlated tool
result, and returns the second model call's output (converted to the
canonical record); exactly two model calls happen and no cap warning
fires. -/
theorem tool_loop_round_trip :
    (∀ (h : HaloOracle) (bs : List Block),
      (toolResults h bs).map (fun r => r.tool_use_id) =
        (toolCallsOf bs).map (fun c => c.1) ∧
      (toolResults h bs).length = (toolCallsOf bs).length) ∧
    (∀ (complete : ModelBackend) (h : HaloOracle) (msgs : List Msg)
       (tools : List Val) (sysC : MsgContent) (resp1 resp2 : ModelResponse)
       (i n : String) (inp : Val),
      complete msgs (sysArg (some sysC)) (toolsArg tools) = resp1 →
      resp1.stop_reason = "tool_use" →
      toolCallsOf resp1.content = [(i, n, inp)] →
      complete
        (msgs ++
          [{ role := "assistant", content := .blocks (resp1.content.map block_to_dict) }] ++
          [{ role := "user",
             content := .results
               [{ tool_use_id := i,
                  content := serializeToolResult (execute_tool h n inp) }] }])
        (sysArg (some sysC)) (toolsArg tools) = resp2 →
      resp2.stop_reason ≠ "tool_use" →
      AgentExecutor.run complete h msgs tools (some sysC) =
        { result := response_to_dict resp2,
          messages := msgs ++
            [{ role := "assistant", content := .blocks (resp1.content.map block_to_dict) }] ++
            [{ role := "user",
               content := .results
                 [{ tool_use_id := i,
                    content := serializeToolResult (execute_tool h n inp) }] }],
          responses := [resp1, resp2],
          capWarning := false }) := by
  constructor
  · intro h bs
    constructor
    · simp [toolResults, List.map_map]
    · simp [toolResults]
  · intro complete h msgs tools sysC resp1 resp2 i n inp h1 hstop1 hcalls h2 hstop2
    have hres : toolResults h resp1.content =
        [{ tool_use_id := i, content := serializeToolResult (execute_tool h n inp) }] := by
      simp [toolResults, hcalls]
    have step1 : runLoop complete h (some sysC) tools MAX_TOOL_ROUNDS msgs [] noResponseYet =
        runLoop complete h (some sysC) tools 9
          (msgs ++
            [{ role := "assistant", content := .blocks (resp1.content.map block_to_dict) }] ++
            [{ role := "user",
               content := .results
                 [{ tool_use_id := i,
                    content := serializeToolResult (execute_tool h n inp) }] }])
          [resp1] resp1 := by
      show runLoop complete h (some sysC) tools (9 + 1) msgs [] noResponseYet = _
      rw [runLoop]
      simp [h1, hstop1, hres]
    have step2 : runLoop complete h (some sysC) tools 9
          (msgs ++
            [{ role := "assistant", content := .blocks (resp1.content.map block_to_dict) }] ++
            [{ role := "user",
               content := .results
                 [{ tool_use_id := i,
                    content := serializeToolResult (execute_tool h n inp) }] }])
          [resp1] resp1 =
        { result := response_to_dict resp2,
          messages := msgs ++
            [{ role := "assistant", content := .blocks (resp1.content.map block_to_dict) }] ++
            [{ role := "user",
               content := .results
                 [{ tool_use_id := i,
                    content := serializeToolResult (execute_tool h n inp) }] }],
          responses := [resp1, resp2],
          capWarning := false } := by
      show runLoop complete h (some sysC) tools (8 + 1) _ _ _ = _
      rw [runLoop]
      simp only [h2]
      simp [hstop2]
    unfold AgentExecutor.run
    exact step1.trans step2

/-- The single tool call's input used by the round-trip witness. -/
def oneToolInput : Val := .vdict [("ticket_id", .vint 5)]

/-- First-round response: one tool request. -/
def oneToolResp1 : ModelResponse :=
  { id := "r1", content := [.tool_use "call-1" "get_ticket" oneToolInput],
    stop_reason := "tool_use" }

/-- Second-round response: final answer. -/
def oneToolResp2 : ModelResponse :=
  { id := "r2", content := [.text "done"], stop_reason := "end_turn" }

/-- A backend that requests one tool on the first call (one inbound user
message) and stops on the next (three messages after the appends). -/
def oneToolModel : ModelBackend := fun m _ _ =>
  if m.length ≤ 1 then oneToolResp1 else oneToolResp2

/-- Witness for C4: one user message, the one-tool backend, the `haloOK`
record store. -/
theorem tool_loop_round_trip_witness :
    (toolResults haloOK oneToolResp1.content).map (fun r => r.tool_use_id) =
      (toolCallsOf oneToolResp1.content).map (fun c => c.1) ∧
    toolCallsOf oneToolResp1.content = [("call-1", "get_ticket", oneToolInput)] ∧
    AgentExecutor.run oneToolModel haloOK [{ role := "user", content := .str "hi" }]
        [] (some (.str "sys")) =
      { result := response_to_dict oneToolResp2,
        messages := [{ role := "user", content := .str "hi" }] ++
          [{ role := "assistant",
             content := .blocks (oneToolResp1.content.map block_to_dict) }] ++
          [{ role := "user",
             content := .results
               [{ tool_use_id := "call-1",
                  content := serializeToolResult
                    (execute_tool haloOK "get_ticket" oneToolInput) }] }],
        responses := [oneToolResp1, oneToolResp2],
        capWarning := false } :=
  ⟨(tool_loop_round_trip.1 haloOK oneToolResp1.content).1,
   rfl,
   tool_loop_round_trip.2 oneToolModel haloOK
     [{ role := "user", content := .str "hi" }] [] (.str "sys")
     oneToolResp1 oneToolResp2 "call-1" "get_ticket" oneToolInput
     rfl rfl rfl rfl (by decide)⟩

/-- A property of every anchored match is a property of the scanned
search result. -/
theorem scanFirst_pred (m : RuleMatcher) (P : List Char → Prop)
    (hm : ∀ prev cs ds, m prev cs = some ds → P ds) :
    ∀ (prev : Option Char) (cs ds : List Char),
      scanFirst m prev cs = some ds → P ds := by
  intro prev cs
  induction cs generalizing prev with
  | nil =>
    intro ds h
    rw [scanFirst] at h
    exact hm _ _ _ h
  | cons c cs ih =>
    intro ds h
    rw [scanFirst] at h
    cases hmc : m prev (c :: cs) with
    | some ds2 => rw [hmc] at h; cases h; exact hm _ _ _ hmc
    | none => rw [hmc] at h; exact ih _ _ h

/-- The bare `#` rule only ever captures runs of at least four digits. -/
theorem bareHashAt_length :
    ∀ (prev : Option Char) (cs ds : List Char),
      bareHashAt prev cs = some ds → 4 ≤ ds.length := by
  intro prev cs ds h
  unfold bareHashAt at h
  split at h
  · split at h
    · exact absurd h (by simp)
    · dsimp only at h
      split at h
      · injection h with h2
        subst h2
        assumption
      · exact absurd h (by simp)
  · exact absurd h (by simp)

/-- No rule matches the empty text. -/
theorem ruleSearch_empty (i : Nat) : ruleSearch i "" = none := by
  rcases i with _|_|_|_|_|_|k
  · rfl
  · rfl
  · rfl
  · rfl
  · rfl
  · rfl
  · simp [ruleSearch, TICKET_ID_PATTERNS, List.get?]

/-- Claim C8.  When several recognition rules match a text, `parse`
returns the captured number of the first matching rule in the fixed
precedence order — whichever rule `i` matches while all earlier rules
have no match anywhere in the text decides the result, even if later
rules also match elsewhere; and the generic bare `#<n>` rule (index 5)
only ever captures at least four digits. -/
theorem parse_rule_precedence :
    (∀ (s : String) (i : Nat) (ds : List Char),
      (∀ j, j < i → ruleSearch j s = none) → ruleSearch i s = some ds →
      TicketIdParser.parse s = some (digitsToNat ds)) ∧
    (∀ (s : String) (ds : List Char), ruleSearch 5 s = some ds → 4 ≤ ds.length) := by
  constructor
  · intro s i ds hj hi
    have hne : s ≠ "" := by
      intro hs; subst hs
      rw [ruleSearch_empty] at hi
      exact Option.noConfusion hi
    have hlt : i < 6 := by
      by_contra hge
      push_neg at hge
      have hnone : TICKET_ID_PATTERNS.get? i = none := by
        apply List.get?_eq_none.mpr
        simpa [TICKET_ID_PATTERNS] using hge
      rw [ruleSearch, hnone] at hi
      exact Option.noConfusion hi
    interval_cases i
    · rw [show ruleSearch 0 s = scanFirst (fun _ => ticketHashAt) none s.data from rfl] at hi
      simp [TicketIdParser.parse, hne, firstCapture, TICKET_ID_PATTERNS, hi]
    · have h0 := hj 0 (by omega)
      rw [show ruleSearch 0 s = scanFirst (fun _ => ticketHashAt) none s.data from rfl] at h0
      rw [show ruleSearch 1 s = scanFirst (fun _ => ticketSpaceAt) none s.data from rfl] at hi
      simp [TicketIdParser.parse, hne, firstCapture, TICKET_ID_PATTERNS, h0, hi]
    · have h0 := hj 0 (by omega)
      have h1 := hj 1 (by omega)
      rw [show ruleSearch 0 s = scanFirst (fun _ => ticketHashAt) none s.data from rfl] at h0
      rw [show ruleSearch 1 s = scanFirst (fun _ => ticketSpaceAt) none s.data from rfl] at h1
      rw [show ruleSearch 2 s = scanFirst (fun _ => ticketIdKeyAt) none s.data from rfl] at hi
      simp [TicketIdParser.parse, hne, firstCapture, TICKET_ID_PATTERNS, h0, h1, hi]
    · have h0 := hj 0 (by omega)
      have h1 := hj 1 (by omega)
      have h2 := hj 2 (by omega)
      rw [show ruleSearch 0 s = scanFirst (fun _ => ticketHashAt) none s.data from rfl] at h0
      rw [show ruleSearch 1 s = scanFirst (fun _ => ticketSpaceAt) none s.data from rfl] at h1
      rw [show ruleSearch 2 s = scanFirst (fun _ => ticketIdKeyAt) none s.data from rfl] at h2
      rw [show ruleSearch 3 s = scanFirst (fun _ => bracketTicketAt) none s.data from rfl] at hi
      simp [TicketIdParser.parse, hne, firstCapture, TICKET_ID_PATTERNS, h0, h1, h2, hi]
    · have h0 := hj 0 (by omega)
      have h1 := hj 1 (by omega)
      have h2 := hj 2 (by omega)
      have h3 := hj 3 (by omega)
      rw [show ruleSearch 0 s = scanFirst (fun _ => ticketHashAt) none s.data from rfl] at h0
      rw [show ruleSearch 1 s = scanFirst (fun _ => ticketSpaceAt) none s.data from rfl] at h1
      rw [show ruleSearch 2 s = scanFirst (fun _ => ticketIdKeyAt) none s.data from rfl] at h2
      rw [show ruleSearch 3 s = scanFirst (fun _ => bracketTicketAt) none s.data from rfl] at h3
      rw [show ruleSearch 4 s = scanFirst (fun _ => urlTicketAt) none s.data from rfl] at hi
      simp [TicketIdParser.parse, hne, firstCapture, TICKET_ID_PATTERNS, h0, h1, h2, h3, hi]
    · have h0 := hj 0 (by omega)
      have h1 := hj 1 (by omega)
      have h2 := hj 2 (by omega)
      have h3 := hj 3 (by omega)
      have h4 := hj 4 (by omega)
      rw [show ruleSearch 0 s = scanFirst (fun _ => ticketHashAt) none s.data from rfl] at h0
      rw [show ruleSearch 1 s = scanFirst (fun _ => ticketSpaceAt) none s.data from rfl] at h1
      rw [show ruleSearch 2 s = scanFirst (fun _ => ticketIdKeyAt) none s.data from rfl] at h2
      rw [show ruleSearch 3 s = scanFirst (fun _ => bracketTicketAt) none s.data from rfl] at h3
      rw [show ruleSearch 4 s = scanFirst (fun _ => urlTicketAt) none s.data from rfl] at h4
      rw [show ruleSearch 5 s = scanFirst bareHashAt none s.data from rfl] at hi
      simp [TicketIdParser.parse, hne, firstCapture, TICKET_ID_PATTERNS, h0, h1, h2, h3, h4, hi]
  · intro s ds h
    rw [show ruleSearch 5 s = scanFirst bareHashAt none s.data from rfl] at h
    exact scanFirst_pred bareHashAt (fun ds => 4 ≤ ds.length) bareHashAt_length none s.data ds h

/-- Witness for C8: in `"go /tickets/321 then #4567890"` both the URL
rule (index 4) and the bare-hash rule (index 5) match; the URL rule wins
with 321.  The bare-hash capture `4567890` has seven (at least four)
digits. -/
theorem parse_rule_precedence_witness :
    (∀ j, j < 4 → ruleSearch j "go /tickets/321 then #4567890" = none) ∧
    ruleSearch 4 "go /tickets/321 then #4567890" = some ['3', '2', '1'] ∧
    ruleSearch 5 "go /tickets/321 then #4567890" =
      some ['4', '5', '6', '7', '8', '9', '0'] ∧
    TicketIdParser.parse "go /tickets/321 then #4567890" = some 321 ∧
    4 ≤ (['4', '5', '6', '7', '8', '9', '0'] : List Char).length :=
  ⟨fun j hj => by interval_cases j <;> rfl,
   rfl, rfl,
   parse_rule_precedence.1 "go /tickets/321 then #4567890" 4 ['3', '2', '1']
     (fun j hj => by interval_cases j <;> rfl) rfl,
   parse_rule_precedence.2 "go /tickets/321 then #4567890"
     ['4', '5', '6', '7', '8', '9', '0'] rfl⟩
